import Mathlib

/-!
Verification of the OG-UK example driver (`examples/run_oguk.py`).

The script is pure orchestration over external collaborators (the
`Specifications` parameter object, the calibration engine, the model runner,
the table/plot utilities and the distributed client).  The shallow embedding
below models, from the source:

* the configuration data flow: how the baseline and the reform
  `Specifications` objects are constructed, merged from the JSON defaults and
  the scalar overrides, and updated with the five calibration-result keys;
* the reform transformation `lower_pa` (both as a value-level function and as
  an in-place mutation on an explicit heap);
* the reporting step (arguments of the `macro_table` call and the CSV name);
* the driver's event trace (client creation/closing around the fallible
  steps), and the `__main__` entry block's name resolution.

External collaborator behaviour that the source does not contain is modelled
from the specification and marked as such in the doc comments.
-/

namespace OGUK

/-- Scalar or array values stored in a parameter specification or in a
calibration result mapping.  Rationals stand in for the floating-point
scalars and numeric arrays of the source (for instance `5e-3`). -/
inductive Value where
  | str : String → Value
  | nat : Nat → Value
  | bool : Bool → Value
  | ratList : List ℚ → Value
  | arr : List (List ℚ) → Value
deriving DecidableEq, Repr

/-- Modelled from the spec: `ogcore.parameters.Specifications` is an external
collaborator, "a large, mutable, named-field configuration object (baseline
flag, start year, worker count, output directories, plus dozens of
economic/tax parameters)" supporting "bulk update from a mapping".  The four
constructor fields are the ones the driver passes explicitly to the
constructor; every merged parameter lives in the `params` association list. -/
structure Specifications where
  baseline : Bool
  num_workers : Nat
  baseline_dir : String
  output_base : String
  params : List (String × Value)
deriving DecidableEq, Repr

/-- One key of a revision mapping applied to the parameter store: an existing
entry for the key is overwritten in place, a new key is appended. -/
def setParam (ps : List (String × Value)) (k : String) (v : Value) :
    List (String × Value) :=
  if ps.any (fun kv => kv.1 == k) then
    ps.map (fun kv => if kv.1 == k then (k, v) else kv)
  else
    ps ++ [(k, v)]

/-- Modelled from the spec: `Specifications.update_specifications` performs a
"bulk update from a mapping" — each key of the revision dictionary is merged
into the parameter store, in the dictionary's (insertion) order. -/
def update_specifications (s : Specifications)
    (revision : List (String × Value)) : Specifications :=
  { s with params := revision.foldl (fun ps kv => setParam ps kv.1 kv.2) s.params }

/-- Look a merged parameter up in a specification. -/
def getParam (s : Specifications) (k : String) : Option Value :=
  (s.params.find? (fun kv => kv.1 == k)).map (fun kv => kv.2)

/-- The module-level constant `START_YEAR = 2018` of the source. -/
def START_YEAR : Nat := 2018

/-- The worker count: `num_workers = min(multiprocessing.cpu_count(), 7)`. -/
def num_workers (cpu_count : Nat) : Nat := min cpu_count 7

/-- The inline override dictionary passed to `update_specifications` for both
runs: tax-function form, age-specific flag, start year and the two
fiscal-closure adjustment speeds. -/
def scalarOverrides : List (String × Value) :=
  [("tax_func_type", Value.str ("DEP")),
   ("age_specific", Value.bool false),
   ("start_year", Value.nat START_YEAR),
   ("alpha_T", Value.ratList [5/1000]),
   ("alpha_G", Value.ratList [5/1000])]

/-- The baseline `Specifications` object just before calibration: constructed
with `baseline=True`, `baseline_dir=base_dir`, `output_base=base_dir`, then
updated from the default JSON file and from the scalar overrides. -/
def preCalibBaseline (nw : Nat) (base_dir : String)
    (jsonDefaults : List (String × Value)) : Specifications :=
  update_specifications
    (update_specifications (Specifications.mk true nw base_dir base_dir []) jsonDefaults)
    scalarOverrides

/-- The reform `Specifications` object just before calibration: constructed
with `baseline=False`, `baseline_dir=base_dir`, `output_base=reform_dir`,
then updated from the same default JSON file and the same scalar overrides. -/
def preCalibReform (nw : Nat) (base_dir reform_dir : String)
    (jsonDefaults : List (String × Value)) : Specifications :=
  update_specifications
    (update_specifications (Specifications.mk false nw base_dir reform_dir []) jsonDefaults)
    scalarOverrides

/-- The five calibration-result keys the driver extracts, in source order. -/
def calibKeys : List String :=
  ["etr_params", "mtrx_params", "mtry_params", "mean_income_data", "frac_tax_payroll"]

/-- Python dictionary subscript `d[k]`: the value when the key is present,
a `KeyError` naming the key otherwise. -/
def dictGet (d : List (String × Value)) (k : String) : Except String Value :=
  match d.find? (fun kv => kv.1 == k) with
  | some kv => Except.ok kv.2
  | none => Except.error k

/-- The `updated_params` dictionary literal of the source: five subscript
lookups evaluated left to right, the first missing key raising `KeyError`. -/
def updated_params (d : List (String × Value)) :
    Except String (List (String × Value)) :=
  match dictGet d ("etr_params") with
  | Except.error k => Except.error k
  | Except.ok e =>
    match dictGet d ("mtrx_params") with
    | Except.error k => Except.error k
    | Except.ok mx =>
      match dictGet d ("mtry_params") with
      | Except.error k => Except.error k
      | Except.ok my =>
        match dictGet d ("mean_income_data") with
        | Except.error k => Except.error k
        | Except.ok mi =>
          match dictGet d ("frac_tax_payroll") with
          | Except.error k => Except.error k
          | Except.ok fp =>
            Except.ok [("etr_params", e), ("mtrx_params", mx), ("mtry_params", my),
                       ("mean_income_data", mi), ("frac_tax_payroll", fp)]

/-- The call `p.update_specifications(updated_params)`: fold the extracted calibration
keys into the specification, propagating a `KeyError` of the extraction. -/
def applyCalib (s : Specifications) (d : List (String × Value)) :
    Except String Specifications :=
  match updated_params d with
  | Except.error k => Except.error k
  | Except.ok l => Except.ok (update_specifications s l)

/-- Entries whose key is not one of the five calibration keys. -/
def notCalib (kv : String × Value) : Bool := !(calibKeys.contains kv.1)

/-! ### The policy-parameter tree and the reform transformation -/

/-- Modelled from the spec: the external policy-parameter tree, "a tree of
dated policy parameters".  The personal-allowance amount is a dated schedule
(year to amount); every other value of the tree is collected in
`otherValues`. -/
structure ParameterTree where
  personal_allowance_amount : Nat → ℚ
  otherValues : List (String × ℚ)

/-- The period literal `"2018"` of the `update` call, as a year. -/
def reformPeriodYear : Nat := 2018

/-- The value literal `10000` of the `update` call. -/
def reformValue : ℚ := 10000

/-- Value level of `lower_pa`: the call `parameters.tax.income_tax.allowances.
personal_allowance.amount.update(period="2018", value=10000)` sets the
amount to `10000` from the period `"2018"` onward and touches nothing
else. -/
def lower_pa (parameters : ParameterTree) : ParameterTree :=
  { parameters with
    personal_allowance_amount := fun y =>
      if reformPeriodYear ≤ y then reformValue
      else parameters.personal_allowance_amount y }

/-- References into the explicit heap of parameter trees. -/
abbrev TreeRef := Nat

/-- An explicit heap of parameter trees, for the in-place view of
`lower_pa`. -/
def TreeStore : Type := TreeRef → ParameterTree

/-- Object level of `lower_pa`: the function receives a reference to a tree,
mutates the tree behind the reference in place, and returns the reference it
received (`return parameters`). -/
def lower_pa_ref (parameters : TreeRef) (σ : TreeStore) : TreeRef × TreeStore :=
  (parameters,
   fun r => if r = parameters then lower_pa (σ parameters) else σ r)

/-- The reform objects the script can mention: the hard-coded
`lower_personal_tax_allowance` class, or an object imported from a dotted
CLI path. -/
inductive ReformObj where
  | lower_personal_tax_allowance : ReformObj
  | imported : String → String → ReformObj
deriving DecidableEq, Repr

/-- The assignment `reform = lower_personal_tax_allowance` inside `main`: the reform handed
to the reform-side calibration is this constant, whatever the CLI said. -/
def reformUsedInMain : ReformObj := ReformObj.lower_personal_tax_allowance

/-- The CLI split of the entry block: `reform_path = args.reform.split(".")`,
`python_module = ".".join(reform_path[:-1])`, `object_name = reform_path[-1]`. -/
def parseReformPath (arg : String) : String × String :=
  (String.intercalate (".") ((arg.splitOn (".")).dropLast),
   (arg.splitOn (".")).getLastD (""))

/-- The reform object the entry block would build from the CLI argument:
`getattr(__import__(python_module), object_name)`. -/
def cliReform (arg : String) : ReformObj :=
  ReformObj.imported (parseReformPath arg).1 (parseReformPath arg).2

/-- The function `main` is defined with no parameters. -/
def mainParamCount : Nat := 0

/-- The entry block calls `main(reform)` with one positional argument. -/
def entryMainCallArgCount : Nat := 1

/-- The single positional argument declared on the argument parser of the
entry block. -/
def parserPositionals : List String := ["reform"]

/-! ### The reporting step -/

/-- A loaded `model_params.pkl` bundle; the driver reads its recorded start
year. -/
structure ModelParams where
  start_year : Nat
deriving DecidableEq, Repr

/-- A loaded `TPI_vars.pkl` bundle: per-variable time series. -/
abbrev TpiVars := List (String × List ℚ)

/-- The keyword arguments of the source's `ot.macro_table(...)` call. -/
structure MacroTableArgs where
  var_list : List String
  output_type : String
  num_years : Nat
  start_year : Nat
deriving DecidableEq, Repr

/-- The arguments the driver passes to `macro_table`: the fixed variable
list, `pct_diff` output, a 10-year horizon, and the start year recorded in
the loaded baseline model parameters. -/
def reportTableArgs (base_params : ModelParams) : MacroTableArgs :=
  MacroTableArgs.mk ["Y", "C", "K", "L", "r", "w"] "pct_diff" 10 base_params.start_year

/-- The fixed CSV file name of `ans.to_csv(...)`. -/
def csvFileName : String := "oguk_example_output.csv"

/-- The time series of one variable in a TPI bundle. -/
def seriesGet (tpi : TpiVars) (v : String) : List ℚ :=
  ((tpi.find? (fun p => p.1 == v)).map (fun p => p.2)).getD []

/-- Percentage difference of a reform series against a baseline series over
the first `num_years` periods. -/
def pctDiffSeries (base reform : List ℚ) (ny : Nat) : List ℚ :=
  ((base.zip reform).take ny).map
    (fun p => if p.1 = 0 then 0 else (p.2 - p.1) / p.1)

/-- Modelled from the spec: the external `ogcore.output_tables.macro_table`
computes "a percentage-difference summary table over a fixed list of macro
variables, for a fixed horizon (10 years), anchored at the baseline's
recorded start year".  One row per requested variable. -/
def macro_table (base_tpi reform_tpi : TpiVars) (args : MacroTableArgs) :
    List (String × List ℚ) :=
  args.var_list.map
    (fun v => (v, pctDiffSeries (seriesGet base_tpi v) (seriesGet reform_tpi v) args.num_years))

/-- The reporting step of the driver: compute the table from the four loaded
artifacts and name the CSV file it is persisted to. -/
def reportStep (base_tpi : TpiVars) (base_params : ModelParams)
    (reform_tpi : TpiVars) (reform_params : ModelParams) :
    String × List (String × List ℚ) :=
  (csvFileName, macro_table base_tpi reform_tpi (reportTableArgs base_params))

/-- Deterministic stub collaborators for one driver invocation: the four
fixtures the loader returns, plus the wall clock the driver prints (which
must not influence the CSV). -/
structure DriverStubs where
  base_tpi : TpiVars
  base_params : ModelParams
  reform_tpi : TpiVars
  reform_params : ModelParams
  clock : Nat

/-- The CSV artifact (name and table) of one driver invocation under stub
collaborators. -/
def driverCsv (st : DriverStubs) : String × List (String × List ℚ) :=
  reportStep st.base_tpi st.base_params st.reform_tpi st.reform_params

/-! ### The driver's event trace -/

/-- The fallible steps of `main`, in program order, after the client is
created. -/
inductive DriverStep where
  | calibBaseline | runBaseline | calibReform | runReform
  | loadResults | makeTable | makePlots | writeCsv
deriving DecidableEq, Repr

/-- The straight-line order of the fallible steps in `main`. -/
def driverOrder : List DriverStep :=
  [DriverStep.calibBaseline, DriverStep.runBaseline, DriverStep.calibReform,
   DriverStep.runReform, DriverStep.loadResults, DriverStep.makeTable,
   DriverStep.makePlots, DriverStep.writeCsv]

/-- Observable events of one `main` invocation. -/
inductive DriverEvent where
  | clientCreated : DriverEvent
  | stepDone : DriverStep → DriverEvent
  | stepRaised : DriverStep → DriverEvent
  | clientClosed : DriverEvent
deriving DecidableEq, Repr

/-- Run the remaining steps: the source has no `try`/`finally`, so a raising
step aborts `main` at once, and `client.close()` runs only after the last
step succeeded. -/
def runSteps (fails : DriverStep → Bool) : List DriverStep → List DriverEvent
  | [] => [DriverEvent.clientClosed]
  | s :: rest =>
    if fails s then [DriverEvent.stepRaised s]
    else DriverEvent.stepDone s :: runSteps fails rest

/-- The event trace of one `main` invocation: `client = Client()` first, then
the straight-line steps. -/
def mainTrace (fails : DriverStep → Bool) : List DriverEvent :=
  DriverEvent.clientCreated :: runSteps fails driverOrder

/-- How often the client is closed in a trace. -/
def closeCount (tr : List DriverEvent) : Nat :=
  tr.countP (fun e => e == DriverEvent.clientClosed)

/-! ### The `__main__` entry block -/

/-- A straight-line Python statement of the entry block: the global names it
reads, the names it binds, and whether it is the `main(reform)` call. -/
structure PyStmt where
  uses : List String
  binds : List String
  callsMain : Bool

/-- The module-level names in scope when the entry block runs: the imports,
the module constant and `main` itself.  `ArgumentParser` is not among them —
the source never imports it. -/
def moduleNames : List String :=
  ["multiprocessing", "Client", "json", "time", "os", "Reform", "Calibration",
   "ot", "op", "runner", "safe_read_pickle", "START_YEAR", "Specifications",
   "main"]

/-- The statements of the `if __name__ == "__main__":` block, in order. -/
def entryStmts : List PyStmt :=
  [PyStmt.mk ["ArgumentParser"] ["parser"] false,
   PyStmt.mk ["parser"] [] false,
   PyStmt.mk ["parser"] ["args"] false,
   PyStmt.mk ["args"] ["reform_path"] false,
   PyStmt.mk ["reform_path"] ["python_module", "object_name"] false,
   PyStmt.mk ["python_module", "object_name"] ["reform"] false,
   PyStmt.mk ["main", "reform"] [] true]

/-- Outcome of running the entry block. -/
inductive EntryOutcome where
  | nameError : String → EntryOutcome
  | completed : EntryOutcome
deriving DecidableEq, Repr

/-- Execute entry-block statements under an environment of bound names: a
statement whose referenced name is unbound raises `NameError` naming it and
aborts the block.  Returns the outcome and whether `main` was called. -/
def execEntry : List PyStmt → List String → EntryOutcome × Bool
  | [], _ => (EntryOutcome.completed, false)
  | st :: rest, env =>
    match st.uses.find? (fun n => !(env.contains n)) with
    | some n => (EntryOutcome.nameError n, false)
    | none =>
      let r := execEntry rest (env ++ st.binds)
      (r.1, st.callsMain || r.2)

/-- Running the script: the command line influences only values, never which
names the entry block's statements reference, so the outcome is a function of
the statement list and the module environment alone. -/
def runScript (argv : List String) : EntryOutcome × Bool :=
  execEntry entryStmts moduleNames

/-! ### Concrete fixtures used by the witnesses -/

/-- A concrete policy-parameter tree. -/
def exampleTree : ParameterTree :=
  ParameterTree.mk (fun _ => 12500) [("basic_rate", 1/5)]

/-- A concrete heap holding `exampleTree` at every reference. -/
def exampleStore : TreeStore := fun _ => exampleTree

/-- A calibration result carrying all five expected keys. -/
def calibFull : List (String × Value) :=
  [("etr_params", Value.arr [[1]]), ("mtrx_params", Value.arr [[2]]),
   ("mtry_params", Value.arr [[3]]), ("mean_income_data", Value.ratList [4]),
   ("frac_tax_payroll", Value.ratList [1/2])]

/-- A second full calibration result with different values. -/
def calibFull2 : List (String × Value) :=
  [("etr_params", Value.arr [[7]]), ("mtrx_params", Value.arr [[8]]),
   ("mtry_params", Value.arr [[9]]), ("mean_income_data", Value.ratList [5]),
   ("frac_tax_payroll", Value.ratList [1/3])]

/-- A calibration result missing the `frac_tax_payroll` key. -/
def calibMissing : List (String × Value) :=
  [("etr_params", Value.arr [[1]]), ("mtrx_params", Value.arr [[2]]),
   ("mtry_params", Value.arr [[3]]), ("mean_income_data", Value.ratList [4])]

/-- A concrete stand-in for the default JSON parameter file. -/
def exampleJson : List (String × Value) :=
  [("frisch", Value.ratList [2/5]), ("tG1", Value.nat 20)]

/-- The concrete baseline specification after calibration, for the
witnesses. -/
def examplePBase : Specifications :=
  match applyCalib (preCalibBaseline 4 ("base") exampleJson) calibFull with
  | Except.ok p => p
  | Except.error _ => Specifications.mk false 0 ("") ("") []

/-- The concrete reform specification after calibration, for the
witnesses. -/
def examplePReform : Specifications :=
  match applyCalib (preCalibReform 4 ("base") ("reform") exampleJson) calibFull2 with
  | Except.ok p => p
  | Except.error _ => Specifications.mk false 0 ("") ("") []

/-! ### Theorems -/

/-- A subscript that raised names exactly the key it was asked for. -/
theorem dictGet_error_eq (d : List (String × Value)) (k k2 : String)
    (h : dictGet d k = Except.error k2) : k2 = k := by
  unfold dictGet at h
  split at h
  · exact Except.noConfusion h
  · injection h with h
    exact h.symm

/-- A subscript that succeeded had its key present in the mapping. -/
theorem dictGet_ok_isSome (d : List (String × Value)) (k : String) (v : Value)
    (h : dictGet d k = Except.ok v) :
    (d.find? (fun kv => kv.1 == k)).isSome := by
  unfold dictGet at h
  split at h
  next kv hf => rw [hf]; rfl
  next hf => exact Except.noConfusion h

/-- When the extraction of the five calibration keys succeeds, the merged
list carries exactly the five keys in source order, each bound to the value
the subscript returned. -/
theorem updated_params_ok_shape (d l : List (String × Value))
    (h : updated_params d = Except.ok l) :
    l.map (fun kv => kv.1) = calibKeys ∧
    ∀ kv ∈ l, dictGet d kv.1 = Except.ok kv.2 := by
  unfold updated_params at h
  split at h
  next k h1 => exact Except.noConfusion h
  next e h1 =>
    split at h
    next k h2 => exact Except.noConfusion h
    next mx h2 =>
      split at h
      next k h3 => exact Except.noConfusion h
      next my h3 =>
        split at h
        next k h4 => exact Except.noConfusion h
        next mi h4 =>
          split at h
          next k h5 => exact Except.noConfusion h
          next fp h5 =>
            injection h with h
            subst h
            refine ⟨rfl, ?_⟩
            intro kv hkv
            simp only [List.mem_cons, List.not_mem_nil, or_false] at hkv
            rcases hkv with rfl | rfl | rfl | rfl | rfl
            · exact h1
            · exact h2
            · exact h3
            · exact h4
            · exact h5

/-- When the extraction of the five calibration keys raises, the raised
`KeyError` names one of the five keys. -/
theorem updated_params_error_mem (d : List (String × Value)) (k2 : String)
    (h : updated_params d = Except.error k2) : k2 ∈ calibKeys := by
  unfold updated_params at h
  split at h
  next k h1 =>
    injection h with h
    subst h
    rw [dictGet_error_eq d _ k h1]
    decide
  next e h1 =>
    split at h
    next k h2 =>
      injection h with h
      subst h
      rw [dictGet_error_eq d _ k h2]
      decide
    next mx h2 =>
      split at h
      next k h3 =>
        injection h with h
        subst h
        rw [dictGet_error_eq d _ k h3]
        decide
      next my h3 =>
        split at h
        next k h4 =>
          injection h with h
          subst h
          rw [dictGet_error_eq d _ k h4]
          decide
        next mi h4 =>
          split at h
          next k h5 =>
            injection h with h
            subst h
            rw [dictGet_error_eq d _ k h5]
            decide
          next fp h5 => exact Except.noConfusion h

/-- When every one of the five calibration keys is present in the mapping,
the extraction succeeds. -/
theorem updated_params_ok_of_present (d : List (String × Value))
    (h : ∀ k ∈ calibKeys, (d.find? (fun kv => kv.1 == k)).isSome) :
    ∃ l, updated_params d = Except.ok l := by
  obtain ⟨p1, hp1⟩ := Option.isSome_iff_exists.mp (h ("etr_params") (by decide))
  obtain ⟨p2, hp2⟩ := Option.isSome_iff_exists.mp (h ("mtrx_params") (by decide))
  obtain ⟨p3, hp3⟩ := Option.isSome_iff_exists.mp (h ("mtry_params") (by decide))
  obtain ⟨p4, hp4⟩ := Option.isSome_iff_exists.mp (h ("mean_income_data") (by decide))
  obtain ⟨p5, hp5⟩ := Option.isSome_iff_exists.mp (h ("frac_tax_payroll") (by decide))
  refine ⟨[("etr_params", p1.2), ("mtrx_params", p2.2), ("mtry_params", p3.2),
           ("mean_income_data", p4.2), ("frac_tax_payroll", p5.2)], ?_⟩
  simp [updated_params, dictGet, hp1, hp2, hp3, hp4, hp5]

/-- A successful extraction presupposes all five keys present. -/
theorem updated_params_ok_present (d l : List (String × Value))
    (h : updated_params d = Except.ok l) :
    ∀ k ∈ calibKeys, (d.find? (fun kv => kv.1 == k)).isSome := by
  obtain ⟨hmap, hmem⟩ := updated_params_ok_shape d l h
  intro k hk
  rw [← hmap] at hk
  obtain ⟨kv, hkv, rfl⟩ := List.mem_map.mp hk
  exact dictGet_ok_isSome d kv.1 kv.2 (hmem kv hkv)

/-- C1: the claim says the distributed client is closed exactly once on every
exit path of `main`.  The code has no `try`/`finally`: when the
plot-generation step raises, the trace contains no close event at all, while
the all-success trace closes the client once.  The code contradicts the
claim, whose requirement the specification itself states as the intent. -/
theorem c1_client_close_skipped_on_plot_error :
    closeCount (mainTrace (fun s => s == DriverStep.makePlots)) = 0 ∧
    closeCount (mainTrace (fun _ => false)) = 1 := by
  constructor <;> rfl

/-- C3: applied to any policy-parameter tree, `lower_pa` sets the
personal-allowance amount to the literal `10000` for every year from 2018
onward, keeps the amount of every earlier year, and leaves every other value
of the tree unchanged. -/
theorem c3_lower_pa_sets_allowance (t : ParameterTree) (y : Nat) :
    (2018 ≤ y → (lower_pa t).personal_allowance_amount y = 10000) ∧
    (y < 2018 →
      (lower_pa t).personal_allowance_amount y = t.personal_allowance_amount y) ∧
    (lower_pa t).otherValues = t.otherValues := by
  refine ⟨?_, ?_, rfl⟩
  · intro h
    simp only [lower_pa, reformPeriodYear, reformValue]
    rw [if_pos h]
  · intro h
    simp only [lower_pa, reformPeriodYear]
    rw [if_neg (Nat.not_le.mpr h)]

/-- Witness for C3, at a concrete tree and concrete years on both sides of
the effective period. -/
theorem c3_lower_pa_sets_allowance_witness :
    (lower_pa exampleTree).personal_allowance_amount 2020 = 10000 ∧
    (lower_pa exampleTree).personal_allowance_amount 2017
      = exampleTree.personal_allowance_amount 2017 ∧
    (lower_pa exampleTree).otherValues = exampleTree.otherValues :=
  ⟨(c3_lower_pa_sets_allowance exampleTree 2020).1 (by decide),
   (c3_lower_pa_sets_allowance exampleTree 2017).2.1 (by decide),
   (c3_lower_pa_sets_allowance exampleTree 2020).2.2⟩

/-- C5: the entry block declares exactly one positional argument `reform`,
`main` is defined with zero parameters while the entry block calls it with
one argument, and the reform used inside `main` is the hard-coded
`lower_personal_tax_allowance` object, never the object built from the CLI
path. -/
theorem c5_cli_reform_never_used :
    parserPositionals = ["reform"] ∧
    mainParamCount = 0 ∧ entryMainCallArgCount = 1 ∧
    mainParamCount ≠ entryMainCallArgCount ∧
    ∀ arg : String,
      reformUsedInMain = ReformObj.lower_personal_tax_allowance ∧
      reformUsedInMain ≠ cliReform arg := by
  refine ⟨rfl, rfl, rfl, by decide, ?_⟩
  intro arg
  exact ⟨rfl, fun h => ReformObj.noConfusion h⟩

/-- C6: the reporting step calls `macro_table` with exactly the variable list
`["Y", "C", "K", "L", "r", "w"]`, output type `pct_diff`, a 10-year horizon,
and the start year recorded in the loaded baseline model parameters — which
need not equal the `START_YEAR` constant — and persists the table to
`oguk_example_output.csv`. -/
theorem c6_report_arguments (bt rt : TpiVars) (bp rp : ModelParams) :
    (reportTableArgs bp).var_list = ["Y", "C", "K", "L", "r", "w"] ∧
    (reportTableArgs bp).output_type = "pct_diff" ∧
    (reportTableArgs bp).num_years = 10 ∧
    (reportTableArgs bp).start_year = bp.start_year ∧
    (reportStep bt bp rt rp).1 = "oguk_example_output.csv" ∧
    (reportStep bt bp rt rp).2.map (fun row => row.1) = ["Y", "C", "K", "L", "r", "w"] ∧
    ∃ bp2 : ModelParams, bp2.start_year ≠ START_YEAR ∧
      (reportTableArgs bp2).start_year = bp2.start_year := by
  refine ⟨rfl, rfl, rfl, rfl, rfl, ?_, ⟨ModelParams.mk 2025, by decide, rfl⟩⟩
  simp [reportStep, macro_table, reportTableArgs]

/-- C7: the worker count handed to both `Specifications` objects is
`min(cpu_count, 7)`, hence never exceeds 7. -/
theorem c7_num_workers_capped (n : Nat) (b r : String) (j : List (String × Value)) :
    num_workers n = min n 7 ∧ num_workers n ≤ 7 ∧
    (preCalibBaseline (num_workers n) b j).num_workers = num_workers n ∧
    (preCalibReform (num_workers n) b r j).num_workers = num_workers n :=
  ⟨rfl, Nat.min_le_right n 7, rfl, rfl⟩

/-- C8: under deterministic stub collaborators, the CSV artifact is a
function of the four loaded fixtures alone — two invocations whose loaders
return the same fixtures produce the identical CSV, whatever else (for
instance the wall clock) differs. -/
theorem c8_report_deterministic (s1 s2 : DriverStubs)
    (h1 : s1.base_tpi = s2.base_tpi) (h2 : s1.base_params = s2.base_params)
    (h3 : s1.reform_tpi = s2.reform_tpi) (h4 : s1.reform_params = s2.reform_params) :
    driverCsv s1 = driverCsv s2 := by
  unfold driverCsv
  rw [h1, h2, h3, h4]

/-- Witness for C8: two stub bundles identical except for the wall clock
yield the identical CSV artifact. -/
theorem c8_report_deterministic_witness :
    driverCsv (DriverStubs.mk [("Y", [1, 2])] (ModelParams.mk 2018)
        [("Y", [2, 4])] (ModelParams.mk 2018) 100)
      = driverCsv (DriverStubs.mk [("Y", [1, 2])] (ModelParams.mk 2018)
        [("Y", [2, 4])] (ModelParams.mk 2018) 999) :=
  c8_report_deterministic _ _ rfl rfl rfl rfl

/-- C9: for every command line, running the script's entry block raises
`NameError` on `ArgumentParser` — the name is referenced by the first
statement but never imported — and `main` is never called. -/
theorem c9_entry_block_name_error (argv : List String) :
    runScript argv = (EntryOutcome.nameError ("ArgumentParser"), false) := rfl

/-- C10: `lower_pa` is an in-place mutation, not a pure transformation: it
returns the very reference it received, the tree behind that reference is
updated, and every other reference is untouched. -/
theorem c10_lower_pa_in_place (r : TreeRef) (σ : TreeStore) :
    (lower_pa_ref r σ).1 = r ∧
    (lower_pa_ref r σ).2 r = lower_pa (σ r) ∧
    ∀ r2 : TreeRef, r2 ≠ r → (lower_pa_ref r σ).2 r2 = σ r2 := by
  refine ⟨rfl, by simp [lower_pa_ref], ?_⟩
  intro r2 h
  simp [lower_pa_ref, h]

/-- Witness for C10, on a concrete heap: the returned reference is the
argument reference, the tree behind it is the updated one, a different
reference is untouched. -/
theorem c10_lower_pa_in_place_witness :
    (lower_pa_ref 0 exampleStore).1 = 0 ∧
    (lower_pa_ref 0 exampleStore).2 0 = lower_pa (exampleStore 0) ∧
    (lower_pa_ref 0 exampleStore).2 1 = exampleStore 1 := by
  obtain ⟨h1, h2, h3⟩ := c10_lower_pa_in_place 0 exampleStore
  exact ⟨h1, h2, h3 1 (by decide)⟩

/-- C4: the merge step extracts exactly the five keys `etr_params`,
`mtrx_params`, `mtry_params`, `mean_income_data`, `frac_tax_payroll` from a
calibration result — when all five are present it succeeds with precisely
those keys bound to the looked-up values, and when any is absent it raises a
`KeyError` naming one of the five, never dropping a key silently. -/
theorem c4_calibration_merge_keys (d : List (String × Value)) :
    ((∀ k ∈ calibKeys, (d.find? (fun kv => kv.1 == k)).isSome) →
      ∃ l, updated_params d = Except.ok l ∧
        l.map (fun kv => kv.1) = calibKeys ∧
        ∀ kv ∈ l, dictGet d kv.1 = Except.ok kv.2) ∧
    ((¬ ∀ k ∈ calibKeys, (d.find? (fun kv => kv.1 == k)).isSome) →
      ∃ k2, updated_params d = Except.error k2 ∧ k2 ∈ calibKeys) := by
  constructor
  · intro h
    obtain ⟨l, hl⟩ := updated_params_ok_of_present d h
    obtain ⟨hmap, hmem⟩ := updated_params_ok_shape d l hl
    exact ⟨l, hl, hmap, hmem⟩
  · intro h
    cases he : updated_params d with
    | error k2 => exact ⟨k2, rfl, updated_params_error_mem d k2 he⟩
    | ok l => exact absurd (updated_params_ok_present d l he) h

/-- Witness for C4: a mapping carrying all five keys is merged in full, and
one missing `frac_tax_payroll` raises a `KeyError` on one of the five keys. -/
theorem c4_calibration_merge_keys_witness :
    (∃ l, updated_params calibFull = Except.ok l ∧
      l.map (fun kv => kv.1) = calibKeys ∧
      ∀ kv ∈ l, dictGet calibFull kv.1 = Except.ok kv.2) ∧
    (∃ k2, updated_params calibMissing = Except.error k2 ∧ k2 ∈ calibKeys) :=
  ⟨(c4_calibration_merge_keys calibFull).1 (by decide),
   (c4_calibration_merge_keys calibMissing).2 (by decide)⟩

/-- An entry whose key is a calibration key is dropped by `notCalib`. -/
theorem notCalib_eq_false (kv : String × Value)
    (hk : calibKeys.contains kv.1 = true) : notCalib kv = false := by
  simpa [notCalib] using hk

/-- Overwriting entries of a calibration key does not change the entries
whose key is not a calibration key. -/
theorem filter_notCalib_map_set (k : String) (v : Value)
    (hk : calibKeys.contains k = true) (ps : List (String × Value)) :
    (ps.map (fun kv => if kv.1 == k then (k, v) else kv)).filter notCalib
      = ps.filter notCalib := by
  induction ps with
  | nil => rfl
  | cons kv t ih =>
    have ih2 := ih
    simp only [beq_iff_eq] at ih2
    by_cases hk1 : kv.1 = k
    · have hdrop : notCalib (k, v) = false := notCalib_eq_false (k, v) hk
      have hdrop2 : notCalib kv = false := by
        refine notCalib_eq_false kv ?_
        rw [hk1]
        exact hk
      simp [List.filter_cons, hk1, hdrop, hdrop2, ih2]
    · simp [List.filter_cons, hk1, ih2]

/-- Setting a calibration key does not change the entries whose key is not a
calibration key. -/
theorem filter_notCalib_setParam (ps : List (String × Value)) (k : String)
    (v : Value) (hk : calibKeys.contains k = true) :
    (setParam ps k v).filter notCalib = ps.filter notCalib := by
  unfold setParam
  split
  · exact filter_notCalib_map_set k v hk ps
  · have hdrop : notCalib (k, v) = false := notCalib_eq_false (k, v) hk
    simp [List.filter_append, List.filter_cons, hdrop]

/-- Folding a revision whose keys are all calibration keys into the
parameter store does not change the entries outside the calibration keys. -/
theorem filter_notCalib_foldl (l : List (String × Value)) :
    ∀ ps : List (String × Value), (∀ kv ∈ l, calibKeys.contains kv.1 = true) →
      (l.foldl (fun ps kv => setParam ps kv.1 kv.2) ps).filter notCalib
        = ps.filter notCalib := by
  induction l with
  | nil => intro ps _; rfl
  | cons kv t ih =>
    intro ps h
    rw [List.foldl_cons,
        ih _ (fun x hx => h x (List.mem_cons_of_mem kv hx)),
        filter_notCalib_setParam ps kv.1 kv.2 (h kv (List.mem_cons_self kv t))]

/-- Every key of a successfully extracted calibration revision is a
calibration key. -/
theorem updated_params_ok_keys_contained (d l : List (String × Value))
    (h : updated_params d = Except.ok l) :
    ∀ kv ∈ l, calibKeys.contains kv.1 = true := by
  obtain ⟨hmap, _⟩ := updated_params_ok_shape d l h
  intro kv hkv
  have hmem : kv.1 ∈ calibKeys := by
    rw [← hmap]
    exact List.mem_map_of_mem (fun kv => kv.1) hkv
  simpa using hmem

/-- The two pre-calibration specifications hold the identical parameter
store. -/
theorem preCalib_params_eq (nw : Nat) (b r : String)
    (j : List (String × Value)) :
    (preCalibBaseline nw b j).params = (preCalibReform nw b r j).params := rfl

/-- C2: just before each specification is handed to the runner, the baseline
and the reform specification differ only in the `baseline` flag, the output
directory and the calibration-derived tax-function parameters — the
`baseline_dir`, the worker count, the JSON defaults and the scalar overrides
are identical between the two. -/
theorem c2_specs_differ_only_in_flag_outdir_calib (nw : Nat)
    (base_dir reform_dir : String)
    (jsonDefaults d d2 : List (String × Value)) (p p2 : Specifications)
    (hb : applyCalib (preCalibBaseline nw base_dir jsonDefaults) d
            = Except.ok p)
    (hr : applyCalib (preCalibReform nw base_dir reform_dir jsonDefaults) d2
            = Except.ok p2) :
    p.baseline = true ∧ p2.baseline = false ∧
    p.output_base = base_dir ∧ p2.output_base = reform_dir ∧
    p.baseline_dir = p2.baseline_dir ∧
    p.num_workers = p2.num_workers ∧
    p.params.filter notCalib = p2.params.filter notCalib := by
  unfold applyCalib at hb hr
  split at hb
  · exact Except.noConfusion hb
  next lb heqb =>
    split at hr
    · exact Except.noConfusion hr
    next lr heqr =>
      injection hb with hb
      injection hr with hr
      subst hb
      subst hr
      refine ⟨rfl, rfl, rfl, rfl, rfl, rfl, ?_⟩
      show (update_specifications (preCalibBaseline nw base_dir jsonDefaults) lb).params.filter notCalib
        = (update_specifications (preCalibReform nw base_dir reform_dir jsonDefaults) lr).params.filter notCalib
      unfold update_specifications
      rw [filter_notCalib_foldl lb _ (updated_params_ok_keys_contained d lb heqb),
          filter_notCalib_foldl lr _ (updated_params_ok_keys_contained d2 lr heqr),
          preCalib_params_eq nw base_dir reform_dir jsonDefaults]

/-- Witness for C2, at a concrete configuration, concrete JSON defaults and
two concrete calibration results. -/
theorem c2_specs_differ_witness :
    examplePBase.baseline = true ∧ examplePReform.baseline = false ∧
    examplePBase.output_base = "base" ∧ examplePReform.output_base = "reform" ∧
    examplePBase.baseline_dir = examplePReform.baseline_dir ∧
    examplePBase.num_workers = examplePReform.num_workers ∧
    examplePBase.params.filter notCalib = examplePReform.params.filter notCalib :=
  c2_specs_differ_only_in_flag_outdir_calib 4 ("base") ("reform") exampleJson
    calibFull calibFull2 examplePBase examplePReform (by rfl) (by rfl)

end OGUK
